import Mathlib

/-!
Verification of the DefraDB example client (sourcenetwork/examples, Rust):
the event-stream document-identifier decoder in
src/http/rust/src/collection_operations.rs and the peer-to-peer
synchronization helpers in src/http/rust/src/p2p_networking.rs.

The Rust string primitives used by the code (trim, lines, strip of the
SSE marker, trim_matches, join, contains) are modelled character-exactly
on Lean lists of characters.  The external serde_json decoders are
modelled as parameters of type String to Option, since serde_json is a
library outside this repository; every theorem about decoder-dependent
behaviour quantifies over them or fixes an explicit sample decoder.
-/

deriving instance DecidableEq for Except

namespace DefraExamples

/-- Unicode White_Space predicate, the set used by the Rust method
char::is_whitespace and hence by str::trim. -/
def rustIsWhitespace (c : Char) : Bool :=
  (0x9 ≤ c.toNat && c.toNat ≤ 0xD) || c.toNat == 0x20 || c.toNat == 0x85 ||
    c.toNat == 0xA0 || c.toNat == 0x1680 || (0x2000 ≤ c.toNat && c.toNat ≤ 0x200A) ||
    c.toNat == 0x2028 || c.toNat == 0x2029 || c.toNat == 0x202F || c.toNat == 0x205F ||
    c.toNat == 0x3000

/-- Characters of a string with leading and trailing whitespace removed,
the Rust method str::trim. -/
def trimChars (l : List Char) : List Char :=
  ((l.dropWhile rustIsWhitespace).reverse.dropWhile rustIsWhitespace).reverse

/-- The Rust method str::trim on strings. -/
def rustTrim (s : String) : String :=
  String.mk (trimChars s.data)

/-- Split a character list at every newline character; a list of n
newlines yields n+1 pieces (the raw split underlying str::lines). -/
def splitNl : List Char → List (List Char)
  | [] => [[]]
  | c :: cs =>
    if c = '\n' then [] :: splitNl cs
    else
      match splitNl cs with
      | [] => [[c]]
      | l :: ls => (c :: l) :: ls

/-- Remove one trailing carriage return, as str::lines does on every
piece that was terminated by a newline. -/
def stripCR (l : List Char) : List Char :=
  if l.getLast? = some '\r' then l.dropLast else l

/-- Post-processing of the raw newline split: every piece except the
last was newline-terminated, so its trailing carriage return is removed;
a final empty piece (trailing newline in the input) is dropped. -/
def rustLinesCore : List (List Char) → List (List Char)
  | [] => []
  | [p] => if p = [] then [] else [p]
  | p :: ps => stripCR p :: rustLinesCore ps

/-- The Rust method str::lines. -/
def rustLines (s : String) : List String :=
  (rustLinesCore (splitNl s.data)).map String.mk

/-- The Rust method str::trim_matches with a character pattern: strips
every leading and every trailing occurrence of the character. -/
def trimMatchesChar (c : Char) (l : List Char) : List Char :=
  ((l.dropWhile (· = c)).reverse.dropWhile (· = c)).reverse

/-- The Rust method Vec::join on strings. -/
def joinSep (sep : String) : List String → String
  | [] => ""
  | [x] => x
  | x :: xs => x ++ sep ++ joinSep sep xs

/-- The Rust method str::contains with a string pattern: does the
needle occur as a contiguous substring of the haystack. -/
def charsContain (needle : List Char) : List Char → Bool
  | [] => needle.isEmpty
  | c :: cs => needle.isPrefixOf (c :: cs) || charsContain needle cs

/-- String version of charsContain, modelling str::contains. -/
def strContains (hay needle : String) : Bool :=
  charsContain needle.data hay.data

/-! Data model, from the struct declarations of the source. -/

/-- Struct DocIDResult of collection_operations.rs: one decoded unit of
the SSE stream, with serde field names docID and error. -/
structure DocIDResult where
  doc_id : String
  error : String
deriving DecidableEq

/-- Struct DefraError of both source files: the JSON error body shape. -/
structure DefraError where
  error : String
deriving DecidableEq

/-- Struct PeerInfo of p2p_networking.rs. -/
structure PeerInfo where
  id : String
  addresses : List String
deriving DecidableEq

/-- Struct SyncDocumentsRequest of p2p_networking.rs, with serde field
renames collectionName and docIDs, and the timeout field marked
skip_serializing_if Option::is_none. -/
structure SyncDocumentsRequest where
  collection_name : String
  doc_ids : List String
  timeout : Option String
deriving DecidableEq

/-! The identifier stream decoder, get_document_ids of
collection_operations.rs lines 151-200.  The serde_json decoders are
parameters: fromStr models serde_json::from_str applied at DocIDResult,
errDecode models serde_json::from_str applied at DefraError; a result
of none models a decode failure. -/

/-- What one line of the body contributes during the decoding loop:
a pushed document identifier, a pushed per-record failure message, or
nothing (framing noise, empty payload, or a dropped unparseable line
that the source only reports through eprintln logging). -/
inductive LineOut where
  | docId (s : String)
  | recErr (s : String)
  | skip
deriving DecidableEq

/-- One iteration of the decoding loop of get_document_ids (source
lines 156-183): trim the line, require the SSE marker, re-trim the
payload, skip an empty payload, structured decode, and on decode
failure the quoted-bare-string fallback using trim_matches. -/
def processLine (fromStr : String → Option DocIDResult) (rawLine : String) : LineOut :=
  let line := rustTrim rawLine
  if ("data: " : String).data.isPrefixOf line.data then
    let jsonData := rustTrim (String.mk (line.data.drop 6))
    if jsonData.data.isEmpty then LineOut.skip
    else
      match fromStr jsonData with
      | some result =>
        if result.error.data.isEmpty then LineOut.docId result.doc_id
        else LineOut.recErr ("DocID " ++ result.doc_id ++ ": " ++ result.error)
      | none =>
        if jsonData.data.head? = some '"' ∧ jsonData.data.getLast? = some '"' then
          LineOut.docId (String.mk (trimMatchesChar '"' jsonData.data))
        else LineOut.skip
  else LineOut.skip

/-- The payload a line submits to the structured decode, if any: the
line is trimmed, must carry the SSE data marker, and the remainder
after the marker is trimmed again; none for framing lines and for
payloads that are empty after trimming (source lines 156-161). -/
def dataPayload (rawLine : String) : Option String :=
  let line := rustTrim rawLine
  if ("data: " : String).data.isPrefixOf line.data then
    let jsonData := rustTrim (String.mk (line.data.drop 6))
    if jsonData.data.isEmpty then none else some jsonData
  else none

/-- Projection selecting the identifier pushed by a line, if any. -/
def docIdOf : LineOut → Option String
  | LineOut.docId s => some s
  | _ => none

/-- Projection selecting the per-record failure pushed by a line. -/
def recErrOf : LineOut → Option String
  | LineOut.recErr s => some s
  | _ => none

/-- The doc_ids vector accumulated over the whole body, in line order. -/
def streamDocIds (fromStr : String → Option DocIDResult) (text : String) : List String :=
  (rustLines text).filterMap (fun l => docIdOf (processLine fromStr l))

/-- The errors vector accumulated over the whole body, in line order. -/
def streamRecErrors (fromStr : String → Option DocIDResult) (text : String) : List String :=
  (rustLines text).filterMap (fun l => recErrOf (processLine fromStr l))

/-- The function get_document_ids of collection_operations.rs
lines 133-201, after the transport succeeded: inputs are the HTTP
status and the body text.  On status 200 the line loop runs and the
call fails iff the errors vector is non-empty, joining all entries; on
any other status the body is decoded as one DefraError, with a generic
status-and-body message as fallback. -/
def get_document_ids (fromStr : String → Option DocIDResult)
    (errDecode : String → Option DefraError) (status : Nat) (text : String) :
    Except String (List String) :=
  if status = 200 then
    let errs := streamRecErrors fromStr text
    if errs.isEmpty then Except.ok (streamDocIds fromStr text)
    else Except.error ("Errors retrieving document IDs: " ++ joinSep "; " errs)
  else
    match errDecode text with
    | some e => Except.error e.error
    | none => Except.error ("Request failed with status: " ++ Nat.repr status ++ " - " ++ text)

/-! The replicator helpers of p2p_networking.rs. -/

/-- The function add_replicator of p2p_networking.rs lines 83-106,
after the transport succeeded: status 200 yields Ok; otherwise the body
is decoded as DefraError through response.json followed by unwrap, so a
body that does not decode PANICS the process, modelled as none; a
decodable body yields Err with the server message. -/
def add_replicator (errDecode : String → Option DefraError) (status : Nat)
    (text : String) : Option (Except String Unit) :=
  if status = 200 then some (Except.ok ())
  else
    match errDecode text with
    | some e => some (Except.error e.error)
    | none => none

/-- Outcome classification applied by main (p2p_networking.rs
lines 410-427) to the result of add_replicator. -/
inductive AddReplicatorOutcome where
  | success
  | alreadyExists
  | rejected (msg : String)
deriving DecidableEq

/-- The branch of main on the result of add_replicator (p2p_networking.rs
lines 417-426): Ok is success; an Err whose message contains the text
already exists is treated as the non-fatal duplicate case; any other
Err is reported as a generic failure with the server message. -/
def classifyAddReplicatorResult (r : Except String Unit) : AddReplicatorOutcome :=
  match r with
  | Except.ok _ => AddReplicatorOutcome.success
  | Except.error e =>
    if strContains e "already exists" then AddReplicatorOutcome.alreadyExists
    else AddReplicatorOutcome.rejected e

/-! JSON serialization of the one-shot sync request. -/

/-- JSON values, as far as the serialized request bodies need. -/
inductive Json where
  | str (s : String)
  | arr (xs : List Json)
  | obj (fields : List (String × Json))

/-- Fields of a JSON object, empty for the other shapes. -/
def jsonFields : Json → List (String × Json)
  | Json.obj fs => fs
  | _ => []

/-- Serde serialization of SyncDocumentsRequest: fields in declaration
order under their renamed keys, the timeout field omitted entirely when
the option is none because of skip_serializing_if Option::is_none. -/
def serializeSyncDocumentsRequest (r : SyncDocumentsRequest) : Json :=
  Json.obj (("collectionName", Json.str r.collection_name) ::
    ("docIDs", Json.arr (r.doc_ids.map Json.str)) ::
    (match r.timeout with
     | none => []
     | some t => [("timeout", Json.str t)]))

/-- The request body built by sync_documents (p2p_networking.rs
lines 270-295) from its arguments, passed verbatim into the struct. -/
def sync_documents_body (collection_name : String) (doc_ids : List String)
    (timeout : Option String) : Json :=
  serializeSyncDocumentsRequest ⟨collection_name, doc_ids, timeout⟩

/-! Convergence verifier, spec section 4.5.  The source files contain
only a degenerate instance (main sleeps a fixed three seconds and
queries once); the poll loop itself is not part of src, so it is
modelled from the spec below. -/

/-- Outcomes of the convergence verifier, from the spec: convergence
observed, budget exhausted without convergence (not an error), or
externally cancelled. -/
inductive VerifyOutcome where
  | converged
  | notConverged
  | cancelled
deriving DecidableEq

/-- Modelled from the spec: the poll loop of the Convergence Verifier
(spec sections 4.5 and 5), which is not implemented under src.  The
k-th poll of the data-query collaborator is abstracted as pred k, and
cancel k says whether external cancellation has been requested when
poll k is due.  Cancellation is checked before each request; then the
query is issued; on success the loop returns converged; otherwise it
sleeps one interval and retries while retries remain.  The pair
returned is the outcome together with the number of polls performed. -/
def verifyPollLoop (pred cancel : Nat → Bool) : Nat → Nat → VerifyOutcome × Nat
  | retries, k =>
    if cancel k then (VerifyOutcome.cancelled, k)
    else if pred k then (VerifyOutcome.converged, k + 1)
    else
      match retries with
      | 0 => (VerifyOutcome.notConverged, k + 1)
      | r + 1 => verifyPollLoop pred cancel r (k + 1)

/-- Modelled from the spec: the number of polls a full run performs,
one immediately and then one per interval while the elapsed time stays
below the budget, so the ceiling of budget over interval and at least
one (Scenario D: interval 500 ms, budget 2 s, four polls). -/
def pollCount (interval budget : Nat) : Nat :=
  max 1 ((budget + interval - 1) / interval)

/-- Modelled from the spec: the Convergence Verifier entry point, spec
section 4.5: issue the query once immediately, retry every interval
until the budget is exhausted, support external cancellation. -/
def verifyConvergence (pred cancel : Nat → Bool) (interval budget : Nat) :
    VerifyOutcome × Nat :=
  verifyPollLoop pred cancel (pollCount interval budget - 1) 0

/-- Sample structured-record decoder standing in for serde_json at type
DocIDResult on the handful of payloads the concrete scenarios use; it
fails (none) on everything else, as serde does on non-JSON payloads. -/
def demoDecode : String → Option DocIDResult := fun s =>
  if s = "\x7b\"docID\":\"abc\",\"error\":\"\"\x7d" then some ⟨"abc", ""⟩
  else if s = "\x7b\"docID\":\"def\",\"error\":\"\"\x7d" then some ⟨"def", ""⟩
  else if s = "\x7b\"docID\":\"xyz\",\"error\":\"not found\"\x7d" then some ⟨"xyz", "not found"⟩
  else none

/-- Sample error-body decoder standing in for serde_json at type
DefraError: succeeds only on one well-formed error object. -/
def demoErrDecode : String → Option DefraError := fun s =>
  if s = "\x7b\"error\":\"collection not found\"\x7d" then some ⟨"collection not found"⟩
  else none

/-- Scenario A body: two well-formed data records around one comment
framing line. -/
def scenarioA : String :=
  "data: \x7b\"docID\":\"abc\",\"error\":\"\"\x7d\n: comment\ndata: \x7b\"docID\":\"def\",\"error\":\"\"\x7d"

/-- Scenario B body: one well-formed record, then one record carrying a
non-empty per-record error. -/
def scenarioB : String :=
  "data: \x7b\"docID\":\"abc\",\"error\":\"\"\x7d\ndata: \x7b\"docID\":\"xyz\",\"error\":\"not found\"\x7d"

/-! Helper lemmas shared by the claim theorems. -/

/-- Factoring of one loop iteration through the payload view: on a line
with payload p, the iteration is exactly the structured decode of p
followed by the fallback. -/
theorem processLine_payload (fromStr : String → Option DocIDResult) (l p : String)
    (hp : dataPayload l = some p) :
    processLine fromStr l =
      match fromStr p with
      | some r =>
        if r.error.data.isEmpty then LineOut.docId r.doc_id
        else LineOut.recErr ("DocID " ++ r.doc_id ++ ": " ++ r.error)
      | none =>
        if p.data.head? = some '"' ∧ p.data.getLast? = some '"' then
          LineOut.docId (String.mk (trimMatchesChar '"' p.data))
        else LineOut.skip := by
  simp only [dataPayload] at hp
  simp only [processLine]
  by_cases h1 : (("data: " : String).data.isPrefixOf (rustTrim l).data) = true
  · rw [if_pos h1] at hp
    rw [if_pos h1]
    by_cases h2 : ((rustTrim (String.mk ((rustTrim l).data.drop 6))).data.isEmpty) = true
    · rw [if_pos h2] at hp
      cases hp
    · rw [if_neg h2] at hp
      rw [if_neg h2]
      rw [Option.some.injEq] at hp
      rw [hp]
  · rw [if_neg h1] at hp
    cases hp


/-- Every string of a list occurs contiguously inside the joined
string, so joining never truncates an entry. -/
theorem data_infix_joinSep (sep : String) :
    ∀ l : List String, ∀ x ∈ l, x.data <:+: (joinSep sep l).data := by
  intro l
  induction l with
  | nil =>
    intro x hx
    cases hx
  | cons a t ih =>
    intro x hx
    cases t with
    | nil =>
      rw [List.mem_singleton] at hx
      rw [hx]
      exact ⟨[], [], by simp [joinSep]⟩
    | cons b t2 =>
      rcases List.mem_cons.mp hx with hxa | hxt
      · rw [hxa]
        refine ⟨[], (sep ++ joinSep sep (b :: t2)).data, ?_⟩
        simp [joinSep, String.data_append, List.append_assoc]
      · have h2 := ih x hxt
        have h3 : (joinSep sep (b :: t2)).data <:+:
            (joinSep sep (a :: b :: t2)).data := by
          have : joinSep sep (a :: b :: t2) = a ++ sep ++ joinSep sep (b :: t2) := rfl
          rw [this, String.data_append]
          exact (List.suffix_append _ _).isInfix
        exact h2.trans h3

/-! Claim theorems. -/

/-- C1: on a 200 response whose lines produce no per-record failure,
get_document_ids succeeds with exactly the in-order identifier sequence
the line loop pushed (duplicates included, since the vector is never
deduplicated), and a line not carrying the data marker contributes
neither an identifier nor a failure. -/
theorem claim_C1_zero_error_decode (fromStr : String → Option DocIDResult)
    (errDecode : String → Option DefraError) (text : String)
    (hne : ∀ l ∈ rustLines text, recErrOf (processLine fromStr l) = none) :
    get_document_ids fromStr errDecode 200 text = Except.ok (streamDocIds fromStr text) ∧
    streamDocIds fromStr text =
      (rustLines text).filterMap (fun l => docIdOf (processLine fromStr l)) ∧
    ∀ l : String, (("data: " : String).data.isPrefixOf (rustTrim l).data) = false →
      processLine fromStr l = LineOut.skip := by
  have h0 : streamRecErrors fromStr text = [] := by
    unfold streamRecErrors
    exact List.filterMap_eq_nil_iff.mpr hne
  refine ⟨?_, rfl, ?_⟩
  · simp [get_document_ids, h0]
  · intro l hl
    simp [processLine, hl]

/-- C1 witness: Scenario A of the spec, two well-formed records around
one comment framing line, decoded with the sample decoder. -/
theorem claim_C1_zero_error_decode_witness :
    get_document_ids demoDecode demoErrDecode 200 scenarioA = Except.ok ["abc", "def"] := by
  have h := (claim_C1_zero_error_decode demoDecode demoErrDecode scenarioA (by decide)).1
  exact h.trans (by decide)

/-- C2: on a 200 response where at least one record carried a non-empty
error field, get_document_ids fails with the aggregate message joining
every accumulated entry; every failing record contributes its DocID
entry to the vector, and every entry of the vector occurs contiguously
inside the aggregate message, so no failure is truncated away. -/
theorem claim_C2_aggregate_error (fromStr : String → Option DocIDResult)
    (errDecode : String → Option DefraError) (text : String)
    (hbad : streamRecErrors fromStr text ≠ []) :
    get_document_ids fromStr errDecode 200 text =
      Except.error ("Errors retrieving document IDs: " ++
        joinSep "; " (streamRecErrors fromStr text)) ∧
    (∀ l ∈ rustLines text, ∀ p r, dataPayload l = some p → fromStr p = some r →
      r.error.data.isEmpty = false →
      ("DocID " ++ r.doc_id ++ ": " ++ r.error) ∈ streamRecErrors fromStr text) ∧
    ∀ s ∈ streamRecErrors fromStr text,
      s.data <:+: ("Errors retrieving document IDs: " ++
        joinSep "; " (streamRecErrors fromStr text)).data := by
  refine ⟨?_, ?_, ?_⟩
  · simp [get_document_ids, List.isEmpty_iff, hbad]
  · intro l hl p r hp hr herr
    have hpl : processLine fromStr l =
        LineOut.recErr ("DocID " ++ r.doc_id ++ ": " ++ r.error) := by
      rw [processLine_payload fromStr l p hp, hr]
      simp [herr]
    unfold streamRecErrors
    exact List.mem_filterMap.mpr ⟨l, hl, by rw [hpl]; rfl⟩
  · intro s hs
    have h1 := data_infix_joinSep "; " (streamRecErrors fromStr text) s hs
    refine h1.trans ?_
    rw [String.data_append]
    exact (List.suffix_append _ _).isInfix

/-- C2 witness: Scenario B of the spec, one good record and one record
failing with a not-found message; the call fails mentioning xyz. -/
theorem claim_C2_aggregate_error_witness :
    get_document_ids demoDecode demoErrDecode 200 scenarioB =
      Except.error "Errors retrieving document IDs: DocID xyz: not found" := by
  have h := (claim_C2_aggregate_error demoDecode demoErrDecode scenarioB (by decide)).1
  exact h.trans (by decide)

/-- C5: on a non-success status, get_document_ids bypasses line
decoding entirely: its result does not depend on the line decoder at
all, and equals the whole-body DefraError decode when that succeeds,
else the generic message carrying the raw status and the raw body. -/
theorem claim_C5_non_success_bypass (fromStr fromStr2 : String → Option DocIDResult)
    (errDecode : String → Option DefraError) (status : Nat) (text : String)
    (hst : status ≠ 200) :
    (get_document_ids fromStr errDecode status text =
      match errDecode text with
      | some e => Except.error e.error
      | none => Except.error ("Request failed with status: " ++ Nat.repr status ++ " - " ++ text)) ∧
    get_document_ids fromStr errDecode status text =
      get_document_ids fromStr2 errDecode status text := by
  unfold get_document_ids
  simp only [if_neg hst]
  exact ⟨trivial, trivial⟩

/-- C5 witness: a 404 response with a decodable JSON error body yields
exactly the server message. -/
theorem claim_C5_non_success_bypass_witness :
    get_document_ids demoDecode demoErrDecode 404 "\x7b\"error\":\"collection not found\"\x7d" =
      Except.error "collection not found" := by
  have h := (claim_C5_non_success_bypass demoDecode demoDecode demoErrDecode 404
    "\x7b\"error\":\"collection not found\"\x7d" (by decide)).1
  exact h.trans (by decide)

/-- C6: the claim that every operation falls back to raw-body and
status reporting when the structured error decode fails is violated by
add_replicator, which unwraps that decode: on a 500 response whose body
is plain text, the modelled add_replicator PANICS (none) instead of
returning an error, while on a decodable error body it returns the
server message, and get_document_ids on the same undecodable input does
implement the claimed fallback. -/
theorem claim_C6_add_replicator_panics :
    add_replicator demoErrDecode 500 "Internal Server Error" = none ∧
    add_replicator demoErrDecode 500 "\x7b\"error\":\"collection not found\"\x7d" =
      some (Except.error "collection not found") ∧
    get_document_ids demoDecode demoErrDecode 500 "Internal Server Error" =
      Except.error "Request failed with status: 500 - Internal Server Error" := by
  decide

/-- C7: a data-marked line whose payload fails the structured decode is
handled by the fallback: a payload that starts and ends with a quote is
unquoted and pushed as a bare identifier, any other payload is dropped,
such a line never pushes a per-record failure, and the 200-status call
fails precisely when some line pushed a per-record failure, so a
decode-failing line alone never fails the whole call. -/
theorem claim_C7_fallback_line (fromStr : String → Option DocIDResult) (l p : String)
    (hp : dataPayload l = some p) (hfail : fromStr p = none) :
    ((p.data.head? = some '"' ∧ p.data.getLast? = some '"') →
      processLine fromStr l = LineOut.docId (String.mk (trimMatchesChar '"' p.data))) ∧
    (¬ (p.data.head? = some '"' ∧ p.data.getLast? = some '"') →
      processLine fromStr l = LineOut.skip) ∧
    (∀ s, processLine fromStr l ≠ LineOut.recErr s) ∧
    ∀ (errDecode : String → Option DefraError) (text : String),
      (∃ m, get_document_ids fromStr errDecode 200 text = Except.error m) ↔
        streamRecErrors fromStr text ≠ [] := by
  have hbase := processLine_payload fromStr l p hp
  rw [hfail] at hbase
  refine ⟨?_, ?_, ?_, ?_⟩
  · intro hq
    rw [hbase, if_pos hq]
  · intro hq
    rw [hbase, if_neg hq]
  · intro s h
    rw [hbase] at h
    by_cases hq : (p.data.head? = some '"' ∧ p.data.getLast? = some '"')
    · rw [if_pos hq] at h
      cases h
    · rw [if_neg hq] at h
      cases h
  · intro errDecode text
    by_cases he : streamRecErrors fromStr text = []
    · simp [get_document_ids, he]
    · simp [get_document_ids, List.isEmpty_iff, he]

/-- C7 witness: a quoted bare-string payload the sample decoder rejects
is unquoted into an identifier. -/
theorem claim_C7_fallback_line_witness :
    processLine demoDecode "data: \"xyzq\"" = LineOut.docId "xyzq" := by
  have h := (claim_C7_fallback_line demoDecode "data: \"xyzq\"" "\"xyzq\""
    (by decide) (by decide)).1 (by decide)
  exact h.trans (by decide)

/-- C10: the fallback unquoting strips all leading and trailing quote
characters rather than one matching pair: a doubly quoted payload
yields the bare inner identifier, the single-character quote payload
passes the quoted test and yields the empty identifier, and a
data-marked line whose payload is empty after trimming contributes
neither an identifier nor a failure. -/
theorem claim_C10_quote_stripping (fromStr : String → Option DocIDResult)
    (h1 : fromStr "\"\"abc\"\"" = none) (h2 : fromStr "\"" = none) :
    processLine fromStr "data: \"\"abc\"\"" = LineOut.docId "abc" ∧
    processLine fromStr "data: \"" = LineOut.docId "" ∧
    ∀ l : String, (("data: " : String).data.isPrefixOf (rustTrim l).data) = true →
      ((rustTrim (String.mk ((rustTrim l).data.drop 6))).data.isEmpty) = true →
      processLine fromStr l = LineOut.skip := by
  refine ⟨?_, ?_, ?_⟩
  · have hd : dataPayload "data: \"\"abc\"\"" = some "\"\"abc\"\"" := by decide
    rw [processLine_payload fromStr _ _ hd, h1]
    decide
  · have hd : dataPayload "data: \"" = some "\"" := by decide
    rw [processLine_payload fromStr _ _ hd, h2]
    decide
  · intro l hm he
    simp [processLine, hm, he]

/-- C10 witness: the doubly quoted and single-quote payloads evaluated
with the sample decoder, which rejects both. -/
theorem claim_C10_quote_stripping_witness :
    processLine demoDecode "data: \"\"abc\"\"" = LineOut.docId "abc" ∧
    processLine demoDecode "data: \"" = LineOut.docId "" := by
  have h := claim_C10_quote_stripping demoDecode (by decide) (by decide)
  exact ⟨h.1, h.2.1⟩

/-- C8: a successful add_replicator result is classified success; a
failure whose message contains the text already exists is classified
alreadyExists, a constructor distinct from every generic rejected
outcome; any other failure keeps the server message as rejected. -/
theorem claim_C8_already_exists_classified (e : String) :
    classifyAddReplicatorResult (Except.ok ()) = AddReplicatorOutcome.success ∧
    (strContains e "already exists" = true →
      classifyAddReplicatorResult (Except.error e) = AddReplicatorOutcome.alreadyExists) ∧
    (strContains e "already exists" = false →
      classifyAddReplicatorResult (Except.error e) = AddReplicatorOutcome.rejected e) ∧
    ∀ m, AddReplicatorOutcome.alreadyExists ≠ AddReplicatorOutcome.rejected m := by
  refine ⟨rfl, ?_, ?_, ?_⟩
  · intro h
    simp [classifyAddReplicatorResult, h]
  · intro h
    simp [classifyAddReplicatorResult, h]
  · intro m h
    cases h

/-- C8 witness: the duplicate-directive message of the second call is
classified alreadyExists. -/
theorem claim_C8_already_exists_classified_witness :
    classifyAddReplicatorResult (Except.error "replicator already exists") =
      AddReplicatorOutcome.alreadyExists :=
  (claim_C8_already_exists_classified "replicator already exists").2.1 (by decide)

/-- C9: the serialized sync_documents body carries the collection name
and the identifier list verbatim under collectionName and docIDs, and
carries a timeout field exactly when a timeout argument was supplied;
when the argument is none no timeout field occurs in the object at
all. -/
theorem claim_C9_sync_body_fields (c : String) (ids : List String) (t : Option String) :
    (jsonFields (sync_documents_body c ids t)).lookup "collectionName" = some (Json.str c) ∧
    (jsonFields (sync_documents_body c ids t)).lookup "docIDs" =
      some (Json.arr (ids.map Json.str)) ∧
    (jsonFields (sync_documents_body c ids t)).lookup "timeout" = t.map Json.str ∧
    (t = none → ∀ j, ("timeout", j) ∉ jsonFields (sync_documents_body c ids t)) := by
  cases t with
  | none =>
    refine ⟨rfl, rfl, rfl, ?_⟩
    intro _ j hj
    simp only [sync_documents_body, serializeSyncDocumentsRequest, jsonFields,
      List.mem_cons, List.not_mem_nil, or_false] at hj
    rcases hj with h | h
    · have h1 : "timeout" = "collectionName" := congrArg Prod.fst h
      exact absurd h1 (by decide)
    · have h1 : "timeout" = "docIDs" := congrArg Prod.fst h
      exact absurd h1 (by decide)
  | some v =>
    refine ⟨rfl, rfl, rfl, ?_⟩
    intro h
    cases h

/-- C9 witness: the timeout field is absent without the argument and
present as the given string duration with it. -/
theorem claim_C9_sync_body_fields_witness :
    (jsonFields (sync_documents_body "Message" ["doc1"] none)).lookup "timeout" = none ∧
    (jsonFields (sync_documents_body "Message" ["doc1"] (some "30s"))).lookup "timeout" =
      some (Json.str "30s") :=
  ⟨(claim_C9_sync_body_fields "Message" ["doc1"] none).2.2.1,
   (claim_C9_sync_body_fields "Message" ["doc1"] (some "30s")).2.2.1⟩

/-- Unfolding equation of the poll loop. -/
theorem verifyPollLoop_unfold (pred cancel : Nat → Bool) (retries k : Nat) :
    verifyPollLoop pred cancel retries k =
      if cancel k = true then (VerifyOutcome.cancelled, k)
      else if pred k = true then (VerifyOutcome.converged, k + 1)
      else
        match retries with
        | 0 => (VerifyOutcome.notConverged, k + 1)
        | r + 1 => verifyPollLoop pred cancel r (k + 1) := by
  cases retries <;> rfl

/-- A run in which the query never succeeds and no cancellation occurs
exhausts all retries and reports notConverged after one poll per
retry plus the immediate first poll. -/
theorem verifyPollLoop_never_true (pred cancel : Nat → Bool)
    (hp : ∀ k, pred k = false) (hc : ∀ k, cancel k = false) :
    ∀ R k, verifyPollLoop pred cancel R k = (VerifyOutcome.notConverged, k + R + 1) := by
  intro R
  induction R with
  | zero =>
    intro k
    simp [verifyPollLoop, hp, hc]
  | succ r ih =>
    intro k
    rw [verifyPollLoop_unfold, if_neg (by simp [hc]), if_neg (by simp [hp])]
    show verifyPollLoop pred cancel r (k + 1) = _
    rw [ih (k + 1)]
    have : k + 1 + r + 1 = k + (r + 1) + 1 := by omega
    rw [this]

/-- C3: the convergence verifier polls once immediately and returns
converged without sleeping when the first query already satisfies the
condition; against a predicate that never becomes true and with no
cancellation it performs exactly pollCount polls and returns the
notConverged outcome rather than raising an error; with interval 500 ms
and budget 2000 ms that is four polls. -/
theorem claim_C3_verifier_poll_loop (pred cancel : Nat → Bool) (interval budget : Nat) :
    (cancel 0 = false → pred 0 = true →
      verifyConvergence pred cancel interval budget = (VerifyOutcome.converged, 1)) ∧
    ((∀ k, pred k = false) → (∀ k, cancel k = false) →
      verifyConvergence pred cancel interval budget =
        (VerifyOutcome.notConverged, pollCount interval budget)) ∧
    pollCount 500 2000 = 4 := by
  refine ⟨?_, ?_, by decide⟩
  · intro hc0 hp0
    unfold verifyConvergence
    rw [verifyPollLoop_unfold, if_neg (by simp [hc0]), if_pos hp0]
  · intro hp hc
    unfold verifyConvergence
    rw [verifyPollLoop_never_true pred cancel hp hc]
    have h1 : 1 ≤ pollCount interval budget := le_max_left 1 _
    have : 0 + (pollCount interval budget - 1) + 1 = pollCount interval budget := by omega
    rw [this]

/-- C3 witness: Scenario D, a never-true predicate with interval 500 ms
and budget 2 s yields notConverged after exactly four polls. -/
theorem claim_C3_verifier_poll_loop_witness :
    verifyConvergence (fun _ => false) (fun _ => false) 500 2000 =
      (VerifyOutcome.notConverged, 4) := by
  have h := (claim_C3_verifier_poll_loop (fun _ => false) (fun _ => false) 500 2000).2.1
    (fun _ => rfl) (fun _ => rfl)
  exact h.trans (by decide)

/-- A run in which cancellation is first requested when poll j is due,
while the predicate was false on every earlier poll, stops right at
that point with exactly j polls performed. -/
theorem verifyPollLoop_cancelled (pred cancel : Nat → Bool) :
    ∀ j R k, cancel (k + j) = true → (∀ i, i < j → cancel (k + i) = false) →
      (∀ i, i < j → pred (k + i) = false) → j ≤ R →
      verifyPollLoop pred cancel R k = (VerifyOutcome.cancelled, k + j) := by
  intro j
  induction j with
  | zero =>
    intro R k hcj _ _ _
    rw [verifyPollLoop_unfold, if_pos (by simpa using hcj)]
    rfl
  | succ n ih =>
    intro R k hcj hc hpr hR
    have hc0 : cancel k = false := by simpa using hc 0 (by omega)
    have hp0 : pred k = false := by simpa using hpr 0 (by omega)
    cases R with
    | zero => omega
    | succ r =>
      rw [verifyPollLoop_unfold, if_neg (by simp [hc0]), if_neg (by simp [hp0])]
      show verifyPollLoop pred cancel r (k + 1) = _
      have hrec := ih r (k + 1)
        (by have : k + 1 + n = k + (n + 1) := by omega
            rw [this]; exact hcj)
        (by intro i hi
            have : k + 1 + i = k + (i + 1) := by omega
            rw [this]; exact hc (i + 1) (by omega))
        (by intro i hi
            have : k + 1 + i = k + (i + 1) := by omega
            rw [this]; exact hpr (i + 1) (by omega))
        (by omega)
      rw [hrec]
      have : k + 1 + n = k + (n + 1) := by omega
      rw [this]

/-- C4: if cancellation is requested when poll j is due, no earlier
poll having converged, the loop terminates at once with exactly j polls
performed and reports the cancelled outcome, which is distinct from
notConverged. -/
theorem claim_C4_verifier_cancellation (pred cancel : Nat → Bool)
    (interval budget j : Nat)
    (hcj : cancel j = true) (hc : ∀ i, i < j → cancel i = false)
    (hpr : ∀ i, i < j → pred i = false) (hj : j ≤ pollCount interval budget - 1) :
    verifyConvergence pred cancel interval budget = (VerifyOutcome.cancelled, j) ∧
    VerifyOutcome.cancelled ≠ VerifyOutcome.notConverged := by
  constructor
  · unfold verifyConvergence
    have h := verifyPollLoop_cancelled pred cancel j (pollCount interval budget - 1) 0
      (by simpa using hcj) (by simpa using hc) (by simpa using hpr) hj
    simpa using h
  · decide

/-- C4 witness: Scenario E, cancellation requested after one poll stops
the loop with exactly one poll performed and the cancelled outcome. -/
theorem claim_C4_verifier_cancellation_witness :
    verifyConvergence (fun _ => false) (fun k => decide (1 ≤ k)) 500 2000 =
      (VerifyOutcome.cancelled, 1) := by
  have h := (claim_C4_verifier_cancellation (fun _ => false) (fun k => decide (1 ≤ k))
    500 2000 1 (by decide)
    (by intro i hi
        have : i = 0 := by omega
        rw [this]
        rfl)
    (by intro i hi
        rfl)
    (by decide)).1
  exact h

end DefraExamples
